import Mathlib

/-!
Verification development for the condition/predicate core of the selene
browser-testing library (file `selene/new/condition.py`).

Modelling choices for the shallow embedding:
* Driver interaction is fallible: every accessor returns
  `Except String α` (the `String` is the raised error's detail) together
  with a trace of accessor invocations (writer style), so that
  short-circuiting claims about "accessor never invoked" are observable.
* Python's `None` attribute marker becomes `Option String`: a missing
  attribute is `none`, and comparing `none` against an expected string is
  `false`, exactly as Python's `None == "s"` is.
* Python `str`/`int` become `String`/`Nat`; `len` is `List.length`.
The `Condition` class and the `selene.common.predicate` module are not part
of the file under verification (it only imports and calls them); their
definitions below are modelled from the specification and say so in their
doc comments.  All the condition factories themselves are translated
directly from `selene/new/condition.py`.
-/

set_option autoImplicit false

namespace Selene

/-- Outcome of evaluating a condition once on a subject: either success, or a
failure carrying a human-readable message. -/
inductive CheckResult where
  | success
  | failure (message : String)
  deriving Repr, DecidableEq

/-- `true` exactly on `CheckResult.success`. -/
def CheckResult.isSuccess : CheckResult → Bool
  | .success => true
  | .failure _ => false

/-- The trace of accessor invocations performed during one evaluation; each
accessor appends its name when called. -/
abbrev Trace := List String

/-- An accessor extracts an actual value from a subject; it may fail (the
subject vanished, the driver raised) and it records its invocation in the
trace. -/
abbrev Accessor (S α : Type) := S → Except String α × Trace

/-- A resolved web element as the driver exposes it: text content, displayed
and enabled state, and attribute lookup by name.  Every query may fail (e.g.
a stale element), and an absent attribute is `none`. -/
structure WebElement where
  textVal : Except String String
  displayedVal : Except String Bool
  enabledVal : Except String Bool
  attrVal : String → Except String (Option String)

/-- A lazily located single element: calling it (`element()` in the source)
resolves the locator, which may fail when the element is absent/detached. -/
structure SeleneElement where
  resolve : Except String WebElement

/-- A lazily located element collection: calling it resolves to the current
list of matching web elements. -/
structure SeleneCollection where
  resolve : Except String (List WebElement)

/-- The browser state the driver exposes: current URL, title and the list of
open window handles. -/
structure WebDriverState where
  currentUrl : Except String String
  titleVal : Except String String
  windowHandles : Except String (List String)

/-- The browser/session subject: calling it (`browser()` in the source)
yields the underlying webdriver. -/
structure SeleneDriver where
  resolve : Except String WebDriverState

namespace predicate

/-- Modelled from the spec: `selene.common.predicate.equals` (module not
under src/) — structural equality of actual with expected. -/
def equals {α : Type} [BEq α] (expected : α) (actual : α) : Bool :=
  actual == expected

/-- Modelled from the spec: `selene.common.predicate.includes` — the actual
string contains the expected string as a substring. -/
def includes (expected : String) (actual : String) : Bool :=
  decide (expected.toList <:+: actual.toList)

/-- `includes` lifted to the absent-attribute marker: an inapplicable
comparison (no attribute at all) evaluates to `false` rather than raising,
per the spec's no-throw predicate policy. -/
def includes_opt (expected : String) (actual : Option String) : Bool :=
  match actual with
  | none => false
  | some s => includes expected s

/-- Modelled from the spec: `selene.common.predicate.includes_word` — the
expected string occurs as a whitespace-delimited token of the actual value;
an absent attribute compares `false` per the no-throw policy. -/
def includes_word (expected : String) (actual : Option String) : Bool :=
  match actual with
  | none => false
  | some s => ((s.split Char.isWhitespace).filter (fun w => !(w == ""))).contains expected

/-- Modelled from the spec: `selene.common.predicate.is_truthy` on an
attribute value — `None` and the empty string are falsy, any other string is
truthy. -/
def is_truthy (actual : Option String) : Bool :=
  match actual with
  | none => false
  | some s => !(s == "")

/-- Modelled from the spec: numeric ordering `actual > expected`. -/
def is_greater_than (expected : Nat) (actual : Nat) : Bool :=
  decide (expected < actual)

/-- Modelled from the spec: numeric ordering `actual >= expected`. -/
def is_greater_than_or_equal (expected : Nat) (actual : Nat) : Bool :=
  decide (expected ≤ actual)

/-- Modelled from the spec: numeric ordering `actual < expected`. -/
def is_less_than (expected : Nat) (actual : Nat) : Bool :=
  decide (actual < expected)

/-- Modelled from the spec: numeric ordering `actual <= expected`. -/
def is_less_than_or_equal (expected : Nat) (actual : Nat) : Bool :=
  decide (actual ≤ expected)

/-- Modelled from the spec: `equals_to_list` — identical length and each
actual element equals the corresponding expected element, in order. -/
def equals_to_list {α : Type} [BEq α] (expected : List α) (actual : List α) : Bool :=
  actual.length == expected.length && (actual.zip expected).all (fun p => p.1 == p.2)

/-- Modelled from the spec: `equals_by_contains_to_list` — identical length
and each actual element contains the corresponding expected element. -/
def equals_by_contains_to_list (expected : List String) (actual : List String) : Bool :=
  actual.length == expected.length && (actual.zip expected).all (fun p => includes p.2 p.1)

/-- `equals_by_contains_to_list` at the attribute-value type: an absent
attribute (`none`) contains nothing, per the no-throw policy. -/
def equals_by_contains_to_list_opt (expected : List String)
    (actual : List (Option String)) : Bool :=
  actual.length == expected.length && (actual.zip expected).all (fun p => includes_opt p.2 p.1)

end predicate

/-- Python's `repr` of a string (quoting only; escaping is irrelevant for
the descriptions at hand). -/
def pyStrRepr (s : String) : String :=
  "'" ++ s ++ "'"

/-- Python's `repr` of a tuple of strings, as an f-string renders a `*args`
tuple: `()` when empty, a trailing comma when a singleton. -/
def pyStrTupleRepr : List String → String
  | [] => "()"
  | [x] => "(" ++ pyStrRepr x ++ ",)"
  | xs => "(" ++ String.intercalate ", " (xs.map pyStrRepr) ++ ")"

/-- A condition over subjects of type `S`: a human-readable description plus
a check function producing one `CheckResult` and the trace of accessor
invocations made during that single evaluation. -/
structure Condition (S : Type) where
  description : String
  check : S → CheckResult × Trace

/-- The string representation of a condition is its description (the
`__str__` of the spec's Condition). -/
def Condition.str {S : Type} (c : Condition S) : String :=
  c.description

/-- Modelled from the spec: `Condition.raise_if_not` (class `selene.wait.
Condition`, not under src/) — applies a boolean predicate directly to the
subject; success iff it returns true, failure (with the description) when it
returns false or when querying the subject raises. -/
def Condition.raise_if_not {S : Type} (description : String)
    (fn : S → Except String Bool) : Condition S :=
  ⟨description, fun s =>
    match fn s with
    | .ok true => (.success, [])
    | .ok false => (.failure (description ++ ": condition not matched"), [])
    | .error e => (.failure (description ++ ", but the check failed with: " ++ e), [])⟩

/-- Modelled from the spec: `Condition.raise_if_not_actual` — computes
`actual` via the accessor and evaluates the predicate on it; on a predicate
mismatch the failure message embeds the description and the captured actual,
and when the accessor itself fails the failure message embeds the
description and the underlying error detail (an access failure is reported
through the very same failure channel as a mismatch, never as a crash). -/
def Condition.raise_if_not_actual {S α : Type} [ToString α] (description : String)
    (accessor : Accessor S α) (pred : α → Bool) : Condition S :=
  ⟨description, fun s =>
    match accessor s with
    | (.ok actual, t) =>
        (if pred actual then .success
         else .failure (description ++ ", but actual was: " ++ toString actual), t)
    | (.error e, t) =>
        (.failure (description ++ ", but the accessor failed with: " ++ e), t)⟩

/-- Modelled from the spec: `Condition.as_not` — succeeds exactly when the
wrapped condition fails and vice versa; described as `"not " + original
description` unless an explicit description is supplied. -/
def Condition.as_not {S : Type} (c : Condition S)
    (described_as : Option String := none) : Condition S :=
  let description := described_as.getD ("not " ++ c.description)
  ⟨description, fun s =>
    match c.check s with
    | (.success, t) => (.failure description, t)
    | (.failure _, t) => (.success, t)⟩

/-- Modelled from the spec: `Condition.and_` — succeeds only if both
conditions succeed on the same subject, evaluated left-to-right; the first
failure short-circuits (the second condition is then not evaluated at all,
so its accessor contributes nothing to the trace) and its message is the one
surfaced. -/
def Condition.and_ {S : Type} (c : Condition S) (other : Condition S) : Condition S :=
  ⟨c.description ++ " and " ++ other.description, fun s =>
    match c.check s with
    | (.success, t1) =>
        let r := other.check s
        (r.1, t1 ++ r.2)
    | (.failure m, t1) => (.failure m, t1)⟩

/-- `element_is_visible` from the source: `raise_if_not('is visible',
lambda element: element().is_displayed())`. -/
def element_is_visible : Condition SeleneElement :=
  Condition.raise_if_not "is visible"
    (fun element => element.resolve >>= fun we => we.displayedVal)

/-- `element_is_hidden` from the source: `as_not(element_is_visible, 'is hidden')`. -/
def element_is_hidden : Condition SeleneElement :=
  Condition.as_not element_is_visible (some "is hidden")

/-- `element_is_enabled` from the source: `raise_if_not('is enabled',
lambda element: element().is_enabled())`. -/
def element_is_enabled : Condition SeleneElement :=
  Condition.raise_if_not "is enabled"
    (fun element => element.resolve >>= fun we => we.enabledVal)

/-- `element_is_disabled` from the source: `as_not(element_is_enabled)`. -/
def element_is_disabled : Condition SeleneElement :=
  Condition.as_not element_is_enabled

/-- `element_is_present` from the source: `raise_if_not('is visible',
lambda element: element() is not None)`.  A successfully resolved handle is
never `None` in Python, and a failed resolution raises, so the lambda is
`true` exactly when resolution succeeds. -/
def element_is_present : Condition SeleneElement :=
  Condition.raise_if_not "is visible"
    (fun element => element.resolve.map (fun _ => true))

/-- `element_is_absent` from the source: `as_not(element_is_present)`. -/
def element_is_absent : Condition SeleneElement :=
  Condition.as_not element_is_present

/-- `element_has_text` from the source, with its default describing phrase
`'has text'` and default comparison `predicate.includes`; the local `text`
accessor reads `element().text`. -/
def element_has_text (expected : String)
    (describing_matched_to : String := "has text")
    (compared_by_predicate_to : String → String → Bool := predicate.includes) :
    Condition SeleneElement :=
  let text : Accessor SeleneElement String := fun element =>
    ((element.resolve >>= fun we => we.textVal), ["text"])
  Condition.raise_if_not_actual (describing_matched_to ++ " " ++ expected)
    text (compared_by_predicate_to expected)

/-- `element_has_exact_text` from the source:
`element_has_text(expected, 'has exact text', predicate.equals)`. -/
def element_has_exact_text (expected : String) : Condition SeleneElement :=
  element_has_text expected "has exact text" predicate.equals

/-- The local `attribute_value` accessor of `element_has_attribute`:
`element().get_attribute(name)` (lifted to top level for reuse in proofs). -/
def attribute_value (name : String) : Accessor SeleneElement (Option String) :=
  fun element => ((element.resolve >>= fun we => we.attrVal name), ["attribute_value " ++ name])

/-- The local `attribute_values` accessor of `element_has_attribute`:
`[element.get_attribute(name) for element in collection()]`. -/
def attribute_values (name : String) : Accessor SeleneCollection (List (Option String)) :=
  fun collection =>
    ((collection.resolve >>= fun es => es.mapM (fun e => e.attrVal name)),
     ["attribute_values " ++ name])

/-- The `ConditionWithValues` class built inside `element_has_attribute`: it
is the raw truthy-attribute condition together with the chained factory
methods `value`, `value_containing`, `values`, `values_containing`. -/
structure ConditionWithValues where
  toCondition : Condition SeleneElement
  value : String → Condition SeleneElement
  value_containing : String → Condition SeleneElement
  values : List String → Condition SeleneCollection
  values_containing : List String → Condition SeleneCollection

/-- `element_has_attribute` from the source.  The raw condition checks the
attribute for truthiness; the chained `value` / `value_containing` compare
the single attribute value against an expected string (Python compares a
possibly-`None` actual with `==` / `in`; here `Option String` against
`some expected` / via the no-throw containment lift), and `values` /
`values_containing` compare a collection's attribute values positionally. -/
def element_has_attribute (name : String) : ConditionWithValues :=
  let raw_attribute_condition :=
    Condition.raise_if_not_actual ("has attribute " ++ name)
      (attribute_value name) predicate.is_truthy
  { toCondition := ⟨raw_attribute_condition.str, raw_attribute_condition.check⟩
    value := fun expected =>
      Condition.raise_if_not_actual
        ("has attribute '" ++ name ++ "' with value '" ++ expected ++ "'")
        (attribute_value name) (predicate.equals (some expected))
    value_containing := fun expected =>
      Condition.raise_if_not_actual
        ("has attribute '" ++ name ++ "' with value containing '" ++ expected ++ "'")
        (attribute_value name) (predicate.includes_opt expected)
    values := fun expected =>
      Condition.raise_if_not_actual
        ("has attribute '" ++ name ++ "' with values '" ++ pyStrTupleRepr expected ++ "'")
        (attribute_values name) (predicate.equals_to_list (expected.map some))
    values_containing := fun expected =>
      Condition.raise_if_not_actual
        ("has attribute '" ++ name ++ "' with values containing '" ++ pyStrTupleRepr expected ++ "'")
        (attribute_values name) (predicate.equals_by_contains_to_list_opt expected) }

/-- `element_is_selected` from the source:
`element_has_attribute('elementIsSelected')` (used as its raw condition). -/
def element_is_selected : ConditionWithValues :=
  element_has_attribute "elementIsSelected"

/-- `element_has_value` from the source:
`element_has_attribute('value').value(expected)`. -/
def element_has_value (expected : String) : Condition SeleneElement :=
  (element_has_attribute "value").value expected

/-- `element_has_value_containing` from the source:
`element_has_attribute('value').value_containing(expected)`. -/
def element_has_value_containing (expected : String) : Condition SeleneElement :=
  (element_has_attribute "value").value_containing expected

/-- `element_has_css_class` from the source; the local accessor reads
`element().get_attribute('class')`. -/
def element_has_css_class (expected : String) : Condition SeleneElement :=
  let class_attribute_value : Accessor SeleneElement (Option String) := fun element =>
    ((element.resolve >>= fun we => we.attrVal "class"), ["class_attribute_value"])
  Condition.raise_if_not_actual ("has css class '" ++ expected ++ "'")
    class_attribute_value (predicate.includes_word expected)

/-- `element_is_blank` from the source:
`element_has_exact_text('').and_(element_has_value(''))`. -/
def element_is_blank : Condition SeleneElement :=
  (element_has_exact_text "").and_ (element_has_value "")

/-- `collection_has_size` from the source, with its default describing
phrase `'has size'` and default comparison `predicate.equals`; the local
`size` accessor reads `len(collection())`. -/
def collection_has_size (expected : Nat)
    (describing_matched_to : String := "has size")
    (compared_by_predicate_to : Nat → Nat → Bool := predicate.equals) :
    Condition SeleneCollection :=
  let size : Accessor SeleneCollection Nat := fun collection =>
    ((collection.resolve.map List.length), ["size"])
  Condition.raise_if_not_actual (describing_matched_to ++ " " ++ toString expected)
    size (compared_by_predicate_to expected)

/-- `collection_has_size_greater_than` from the source. -/
def collection_has_size_greater_than (expected : Nat) : Condition SeleneCollection :=
  collection_has_size expected "has size greater than" predicate.is_greater_than

/-- `collection_has_size_greater_than_or_equal` from the source. -/
def collection_has_size_greater_than_or_equal (expected : Nat) : Condition SeleneCollection :=
  collection_has_size expected "has size greater than or equal" predicate.is_greater_than_or_equal

/-- `collection_has_size_less_than` from the source. -/
def collection_has_size_less_than (expected : Nat) : Condition SeleneCollection :=
  collection_has_size expected "has size less than" predicate.is_less_than

/-- `collection_has_size_less_than_or_equal` from the source. -/
def collection_has_size_less_than_or_equal (expected : Nat) : Condition SeleneCollection :=
  collection_has_size expected "has size less than or equal" predicate.is_less_than_or_equal

/-- The body of the local `visible_texts` accessor of `collection_has_texts`
and `collection_has_exact_texts`: the list comprehension
`[webelement.text for webelement in collection() if webelement.is_displayed()]`,
querying displayed-ness of every element and the text of the displayed ones,
in order, propagating the first driver error. -/
def visibleTextsOf : List WebElement → Except String (List String)
  | [] => .ok []
  | w :: ws => do
    let d ← w.displayedVal
    if d then
      let t ← w.textVal
      let rest ← visibleTextsOf ws
      pure (t :: rest)
    else
      visibleTextsOf ws

/-- `collection_has_texts` from the source.  NOTE: the source signature is
`def collection_has_texts(self, *expected)` — the first positional argument
is bound to an unused `self` parameter, and only the remaining arguments
form the expected tuple. -/
def collection_has_texts (self : String) (expected : List String) :
    Condition SeleneCollection :=
  let visible_texts : Accessor SeleneCollection (List String) := fun collection =>
    ((collection.resolve >>= visibleTextsOf), ["visible_texts"])
  Condition.raise_if_not_actual ("has texts " ++ pyStrTupleRepr expected)
    visible_texts (predicate.equals_by_contains_to_list expected)

/-- `collection_has_exact_texts` from the source; same unused leading `self`
parameter as `collection_has_texts`. -/
def collection_has_exact_texts (self : String) (expected : List String) :
    Condition SeleneCollection :=
  let visible_texts : Accessor SeleneCollection (List String) := fun collection =>
    ((collection.resolve >>= visibleTextsOf), ["visible_texts"])
  Condition.raise_if_not_actual ("has exact texts " ++ pyStrTupleRepr expected)
    visible_texts (predicate.equals_to_list expected)

/-- `browser_has_url` from the source; note the f-string
`f'{describing_matched_to} + {expected}'` puts a literal " + " between the
phrase and the expected value. -/
def browser_has_url (expected : String)
    (describing_matched_to : String := "has url")
    (compared_by_predicate_to : String → String → Bool := predicate.equals) :
    Condition SeleneDriver :=
  let url : Accessor SeleneDriver String := fun browser =>
    ((browser.resolve >>= fun d => d.currentUrl), ["url"])
  Condition.raise_if_not_actual (describing_matched_to ++ " + " ++ expected)
    url (compared_by_predicate_to expected)

/-- `browser_has_url_containing` from the source. -/
def browser_has_url_containing (expected : String) : Condition SeleneDriver :=
  browser_has_url expected "has url containing" predicate.includes

/-- `browser_has_title` from the source; same f-string with a literal " + "
as `browser_has_url`. -/
def browser_has_title (expected : String)
    (describing_matched_to : String := "has title")
    (compared_by_predicate_to : String → String → Bool := predicate.equals) :
    Condition SeleneDriver :=
  let title : Accessor SeleneDriver String := fun browser =>
    ((browser.resolve >>= fun d => d.titleVal), ["title"])
  Condition.raise_if_not_actual (describing_matched_to ++ " + " ++ expected)
    title (compared_by_predicate_to expected)

/-- `browser_has_title_containing` from the source. -/
def browser_has_title_containing (expected : String) : Condition SeleneDriver :=
  browser_has_title expected "has title containing" predicate.includes

/-- `browser_has_tabs_number` from the source; its f-string joins with a
single space, not " + ". -/
def browser_has_tabs_number (expected : Nat)
    (describing_matched_to : String := "has tabs number")
    (compared_by_predicate_to : Nat → Nat → Bool := predicate.equals) :
    Condition SeleneDriver :=
  let tabs_number : Accessor SeleneDriver Nat := fun browser =>
    ((browser.resolve >>= fun d => d.windowHandles.map List.length), ["tabs_number"])
  Condition.raise_if_not_actual (describing_matched_to ++ " " ++ toString expected)
    tabs_number (compared_by_predicate_to expected)

/-- `browser_has_tabs_number_greater_than` from the source. -/
def browser_has_tabs_number_greater_than (expected : Nat) : Condition SeleneDriver :=
  browser_has_tabs_number expected "has tabs number greater than" predicate.is_greater_than

/-- `browser_has_tabs_number_greater_than_or_equal` from the source. -/
def browser_has_tabs_number_greater_than_or_equal (expected : Nat) : Condition SeleneDriver :=
  browser_has_tabs_number expected "has tabs number greater than or equal"
    predicate.is_greater_than_or_equal

/-- `browser_has_tabs_number_less_than` from the source. -/
def browser_has_tabs_number_less_than (expected : Nat) : Condition SeleneDriver :=
  browser_has_tabs_number expected "has tabs number less than" predicate.is_less_than

/-- `browser_has_tabs_number_less_than_or_equal` from the source. -/
def browser_has_tabs_number_less_than_or_equal (expected : Nat) : Condition SeleneDriver :=
  browser_has_tabs_number expected "has tabs number less than or equal"
    predicate.is_less_than_or_equal

/-! Concrete fixtures used to exercise the theorems below on closed inputs. -/

/-- A web element whose displayed state and text are the given values and
whose every query succeeds; it carries no attributes. -/
def mkDisplayedTextElement (displayed : Bool) (text : String) : WebElement :=
  { textVal := .ok text
    displayedVal := .ok displayed
    enabledVal := .ok true
    attrVal := fun _ => .ok none }

/-- A fully blank, healthy web element: empty text and an empty `value`
attribute. -/
def blankWebElement : WebElement :=
  { textVal := .ok ""
    displayedVal := .ok true
    enabledVal := .ok true
    attrVal := fun name => if name == "value" then .ok (some "") else .ok none }

/-- An element that resolves to `blankWebElement`. -/
def blankElement : SeleneElement :=
  ⟨.ok blankWebElement⟩

/-- An element whose locator no longer resolves: every access raises a stale
element reference error. -/
def detachedElement : SeleneElement :=
  ⟨.error "stale element reference"⟩

/-- Displayed/text pairs for a demo collection: the middle element is not
displayed. -/
def demoPairs : List (Bool × String) :=
  [(true, "a"), (false, "zzz"), (true, "b")]

/-- A collection resolving to the `demoPairs` elements. -/
def demoCollection : SeleneCollection :=
  ⟨.ok (demoPairs.map (fun p => mkDisplayedTextElement p.1 p.2))⟩

/-- A call-counting stub accessor over a trivial subject: every invocation
records the given name in the trace and yields the given outcome. -/
def stubAccessor (name : String) (value : Except String Nat) : Accessor Unit Nat :=
  fun _ => (value, [name])

/-- A stub condition built from a call-counting stub accessor. -/
def stubCondition (name : String) (value : Except String Nat) (pred : Nat → Bool) :
    Condition Unit :=
  Condition.raise_if_not_actual ("stub " ++ name) (stubAccessor name value) pred

/-- A stub condition that always fails (actual 1, expected 2). -/
def failingStub : Condition Unit :=
  stubCondition "first_accessor" (.ok 1) (fun n => n == 2)

/-- A stub condition that always succeeds (actual 2, expected 2). -/
def passingStub : Condition Unit :=
  stubCondition "first_accessor" (.ok 2) (fun n => n == 2)

/-- A second stub condition whose accessor records `"second_accessor"`; used
to count whether `and_` ever invokes the right-hand accessor. -/
def countingStub : Condition Unit :=
  stubCondition "second_accessor" (.ok 3) (fun n => n == 3)

/-! Helper lemmas shared by the claim theorems. -/

/-- Evaluating `raise_if_not_actual` when the accessor succeeds: the result
is success exactly when the predicate holds of the actual value. -/
theorem raise_if_not_actual_ok_iff {S α : Type} [ToString α] (d : String)
    (acc : Accessor S α) (pred : α → Bool) (s : S) (a : α) (t : Trace)
    (hacc : acc s = (.ok a, t)) :
    (((Condition.raise_if_not_actual d acc pred).check s).1 = .success ↔ pred a = true) := by
  by_cases hp : pred a <;> simp [Condition.raise_if_not_actual, hacc, hp]

/-- Evaluating `raise_if_not_actual` when the accessor fails: the result is
a failure embedding the description and the underlying error detail. -/
theorem raise_if_not_actual_error_eq {S α : Type} [ToString α] (d : String)
    (acc : Accessor S α) (pred : α → Bool) (s : S) (e : String) (t : Trace)
    (hacc : acc s = (.error e, t)) :
    ((Condition.raise_if_not_actual d acc pred).check s).1 =
      .failure (d ++ ", but the accessor failed with: " ++ e) := by
  simp [Condition.raise_if_not_actual, hacc]

/-- `equals_to_list` is true exactly on the equal list. -/
theorem pred_equals_to_list_iff {α : Type} [BEq α] [LawfulBEq α]
    (e a : List α) : predicate.equals_to_list e a = true ↔ a = e := by
  induction a generalizing e with
  | nil => cases e <;> simp [predicate.equals_to_list]
  | cons x as ih =>
    cases e with
    | nil => simp [predicate.equals_to_list]
    | cons y es =>
      simp only [predicate.equals_to_list, List.length_cons, List.zip_cons_cons,
        List.all_cons, Bool.and_eq_true, beq_iff_eq, Nat.add_right_cancel_iff,
        List.all_eq_true, List.cons.injEq] at ih ⊢
      constructor
      · rintro ⟨hlen, hxy, hall⟩
        exact ⟨hxy, (ih es).mp ⟨hlen, hall⟩⟩
      · rintro ⟨hxy, hrest⟩
        obtain ⟨hlen, hall⟩ := (ih es).mpr hrest
        exact ⟨hlen, hxy, hall⟩

/-- `equals_by_contains_to_list` unfolded into its two requirements:
identical length and positional containment. -/
theorem pred_equals_by_contains_to_list_iff (e a : List String) :
    predicate.equals_by_contains_to_list e a = true ↔
      (a.length = e.length ∧ ∀ p ∈ a.zip e, predicate.includes p.2 p.1 = true) := by
  simp [predicate.equals_by_contains_to_list, List.all_eq_true]

/-- The `visible_texts` comprehension on elements built by
`mkDisplayedTextElement` keeps exactly the texts of the displayed ones, in
order. -/
theorem visibleTextsOf_mkDisplayedTextElement (ps : List (Bool × String)) :
    visibleTextsOf (ps.map (fun p => mkDisplayedTextElement p.1 p.2)) =
      .ok ((ps.filter (fun p => p.1)).map (fun p => p.2)) := by
  induction ps with
  | nil => rfl
  | cons p ps ih =>
    obtain ⟨d, t⟩ := p
    simp only [mkDisplayedTextElement] at ih
    cases d <;>
      simp [visibleTextsOf, mkDisplayedTextElement, List.filter_cons, ih,
        Bind.bind, Except.bind, pure, Except.pure]

/-- The result of a conjunction is success exactly when both conjuncts
evaluate to success. -/
theorem and_check_success_iff {S : Type} (c1 c2 : Condition S) (s : S) :
    (((c1.and_ c2).check s).1 = .success ↔
      ((c1.check s).1 = .success ∧ (c2.check s).1 = .success)) := by
  rcases h1 : c1.check s with ⟨r1, t1⟩
  rcases h2 : c2.check s with ⟨r2, t2⟩
  cases r1 <;> cases r2 <;> simp [Condition.and_, h1, h2]

/-- C2: `c1.and_(c2)` succeeds on a subject exactly when both `c1` and `c2`
succeed on it, evaluating `c1` before `c2` (the combined trace is `c1`'s
trace followed by `c2`'s); when `c1` fails, `c1`'s failure message is the
one surfaced. -/
theorem and_succeeds_iff_both {S : Type} (c1 c2 : Condition S) (s : S) :
    (((c1.and_ c2).check s).1 = .success ↔
      ((c1.check s).1 = .success ∧ (c2.check s).1 = .success))
    ∧ (∀ m, (c1.check s).1 = .failure m → ((c1.and_ c2).check s).1 = .failure m)
    ∧ ((c1.check s).1 = .success →
        ((c1.and_ c2).check s).2 = (c1.check s).2 ++ (c2.check s).2) := by
  rcases h1 : c1.check s with ⟨r1, t1⟩
  rcases h2 : c2.check s with ⟨r2, t2⟩
  cases r1 <;> cases r2 <;> simp [Condition.and_, h1, h2]

/-- C2 witness: on the trivial subject, the failing stub's own failure
message is the one surfaced by the conjunction, and the conjunction of two
passing stubs succeeds. -/
theorem and_succeeds_iff_both_witness :
    ((failingStub.and_ countingStub).check ()).1 =
      .failure ("stub first_accessor" ++ ", but actual was: " ++ "1")
    ∧ ((passingStub.and_ countingStub).check ()).1 = .success :=
  ⟨(and_succeeds_iff_both failingStub countingStub ()).2.1
      ("stub first_accessor" ++ ", but actual was: " ++ "1") rfl,
   (and_succeeds_iff_both passingStub countingStub ()).1.mpr ⟨rfl, rfl⟩⟩

/-- C3: when `c1` fails on a subject, evaluating `c1.and_(c2)` there is
literally the evaluation of `c1` alone — same result and same accessor
trace — so `c2`'s accessor is never invoked. -/
theorem and_short_circuit_skips_second {S : Type} (c1 c2 : Condition S) (s : S)
    (m : String) (h : (c1.check s).1 = .failure m) :
    (c1.and_ c2).check s = c1.check s := by
  rcases h1 : c1.check s with ⟨r1, t1⟩
  rw [h1] at h
  cases r1 with
  | success => simp at h
  | failure m0 => simp [Condition.and_, h1]

/-- C3 witness: with a failing left stub, the conjunction's evaluation
equals the left stub's alone and the call count of the right stub's
accessor stays zero. -/
theorem and_short_circuit_skips_second_witness :
    (failingStub.and_ countingStub).check () = failingStub.check ()
    ∧ ((failingStub.and_ countingStub).check ()).2.count "second_accessor" = 0 :=
  ⟨and_short_circuit_skips_second failingStub countingStub ()
      ("stub first_accessor" ++ ", but actual was: " ++ "1") rfl,
   by decide⟩

/-- C4: double negation round-trips the observable outcome — for any
condition, subject and description overrides, `as_not (as_not c)` succeeds
exactly when `c` does and fails exactly when `c` does. -/
theorem as_not_as_not_roundtrip {S : Type} (c : Condition S)
    (d1 d2 : Option String) (s : S) :
    ((((c.as_not d1).as_not d2).check s).1).isSuccess = ((c.check s).1).isSuccess := by
  rcases h : c.check s with ⟨r, t⟩
  cases r <;> simp [Condition.as_not, h, CheckResult.isSuccess]

/-- C7: `as_not` describes the new condition as `"not " +` the original
description unless an explicit description is supplied, which is then used
verbatim; in particular `element_is_disabled` is described "not is enabled"
and `element_is_hidden` is described "is hidden". -/
theorem as_not_description_default_and_override :
    (∀ (S : Type) (c : Condition S), (c.as_not none).description = "not " ++ c.description)
    ∧ (∀ (S : Type) (c : Condition S) (d : String), (c.as_not (some d)).description = d)
    ∧ element_is_disabled.description = "not is enabled"
    ∧ element_is_hidden.description = "is hidden" :=
  ⟨fun _ _ => rfl, fun _ _ _ => rfl, rfl, rfl⟩

/-- C8: the extra leading `self` parameter of `collection_has_texts` and
`collection_has_exact_texts` is consumed and never used — the resulting
condition is the same whatever is passed there, and the description shows
only the remaining arguments. -/
theorem collection_texts_ignore_leading_self :
    (∀ (a b : String) (e : List String), collection_has_texts a e = collection_has_texts b e)
    ∧ (∀ (a b : String) (e : List String),
        collection_has_exact_texts a e = collection_has_exact_texts b e)
    ∧ (∀ (a : String) (e : List String),
        (collection_has_texts a e).description = "has texts " ++ pyStrTupleRepr e)
    ∧ (∀ (a : String) (e : List String),
        (collection_has_exact_texts a e).description = "has exact texts " ++ pyStrTupleRepr e) :=
  ⟨fun _ _ _ => rfl, fun _ _ _ => rfl, fun _ _ => rfl, fun _ _ => rfl⟩

/-- C9: the browser URL/title factories (and their `_containing` variants,
which reuse them) join the describing phrase and the expected value with a
literal " + ", e.g. `browser_has_url('x')` is described "has url + x",
whereas the other factories join with a single space. -/
theorem browser_url_title_descriptions_use_plus :
    (∀ e, (browser_has_url e).description = "has url + " ++ e)
    ∧ (∀ e, (browser_has_title e).description = "has title + " ++ e)
    ∧ (∀ e, (browser_has_url_containing e).description = "has url containing + " ++ e)
    ∧ (∀ e, (browser_has_title_containing e).description = "has title containing + " ++ e)
    ∧ (browser_has_url "x").description = "has url + x"
    ∧ (∀ e, (element_has_text e).description = "has text " ++ e)
    ∧ (collection_has_size 3).description = "has size 3"
    ∧ (browser_has_tabs_number 2).description = "has tabs number 2" :=
  ⟨fun _ => rfl, fun _ => rfl, fun _ => rfl, fun _ => rfl, rfl, fun _ => rfl, rfl, rfl⟩

/-- C10: `element_is_present`'s description string is "is visible", the
same as `element_is_visible`'s, although its check only requires that the
element handle resolves; consequently `element_is_absent`'s default
description is "not is visible", not a phrase about presence. -/
theorem element_is_present_described_is_visible :
    element_is_present.description = "is visible"
    ∧ element_is_visible.description = "is visible"
    ∧ element_is_absent.description = "not is visible"
    ∧ ∀ (el : SeleneElement),
        (((element_is_present.check el).1 = .success) ↔ ∃ we, el.resolve = .ok we) := by
  refine ⟨rfl, rfl, rfl, fun el => ?_⟩
  rcases h : el.resolve with e | we <;>
    simp [element_is_present, Condition.raise_if_not, h, Except.map]

/-- C1: `element_is_blank` succeeds on an element exactly when its text is
the empty string AND its `value` attribute is the empty string; it fails
when either is non-empty (in particular also when the attribute is absent
altogether). -/
theorem element_is_blank_succeeds_iff (el : SeleneElement) (we : WebElement)
    (txt : String) (av : Option String)
    (h1 : el.resolve = .ok we) (h2 : we.textVal = .ok txt)
    (h3 : we.attrVal "value" = .ok av) :
    ((element_is_blank.check el).1 = .success ↔ (txt = "" ∧ av = some "")) := by
  have hexact : ((element_has_exact_text "").check el).1 = .success ↔
      predicate.equals "" txt = true := by
    have heq : element_has_exact_text "" = Condition.raise_if_not_actual
        ("has exact text" ++ " " ++ "")
        (fun element => ((element.resolve >>= fun we => we.textVal), ["text"]))
        (predicate.equals "") := rfl
    rw [heq]
    exact raise_if_not_actual_ok_iff _ _ _ el txt ["text"]
      (by simp [h1, h2, Bind.bind, Except.bind])
  have hval : ((element_has_value "").check el).1 = .success ↔
      predicate.equals (some "") av = true := by
    have heq : element_has_value "" = Condition.raise_if_not_actual
        ("has attribute '" ++ "value" ++ "' with value '" ++ "" ++ "'")
        (attribute_value "value") (predicate.equals (some "")) := rfl
    rw [heq]
    exact raise_if_not_actual_ok_iff _ _ _ el av ["attribute_value " ++ "value"]
      (by simp [attribute_value, h1, h3, Bind.bind, Except.bind])
  have hblank : element_is_blank =
      (element_has_exact_text "").and_ (element_has_value "") := rfl
  rw [hblank, and_check_success_iff, hexact, hval]
  simp [predicate.equals]

/-- C1 witness: a healthy element with empty text and an empty `value`
attribute satisfies `element_is_blank`. -/
theorem element_is_blank_succeeds_iff_witness :
    (element_is_blank.check blankElement).1 = .success :=
  (element_is_blank_succeeds_iff blankElement blankWebElement "" (some "")
      rfl rfl rfl).mpr ⟨rfl, rfl⟩

/-- C5: when the attribute-value accessor fails (a detached element whose
locator raises), the condition built by
`element_has_attribute('value').value(expected)` reports a failure through
the ordinary failure channel — the same constructor a predicate mismatch
uses — whose message is its description, exactly the string
"has attribute 'value' with value '...'" with the expected value between
the inner quotes, followed by the underlying error detail; its description
is that same string. -/
theorem element_has_value_reports_access_failure (expected err : String)
    (el : SeleneElement) (h : el.resolve = .error err) :
    ((element_has_value expected).check el).1 =
      .failure ("has attribute 'value' with value '" ++ expected ++ "'" ++
        ", but the accessor failed with: " ++ err)
    ∧ (element_has_value expected).description =
      "has attribute 'value' with value '" ++ expected ++ "'" := by
  have heq : element_has_value expected = Condition.raise_if_not_actual
      ("has attribute '" ++ "value" ++ "' with value '" ++ expected ++ "'")
      (attribute_value "value") (predicate.equals (some expected)) := rfl
  have hacc : attribute_value "value" el = (.error err, ["attribute_value " ++ "value"]) := by
    simp [attribute_value, h, Bind.bind, Except.bind]
  rw [heq]
  exact ⟨raise_if_not_actual_error_eq _ _ _ el err _ hacc, rfl⟩

/-- C5 witness: a concrete detached element with a stale-reference error and
the expected value "x". -/
theorem element_has_value_reports_access_failure_witness :
    ((element_has_value "x").check detachedElement).1 =
      .failure ("has attribute 'value' with value '" ++ "x" ++ "'" ++
        ", but the accessor failed with: " ++ "stale element reference")
    ∧ (element_has_value "x").description =
      "has attribute 'value' with value '" ++ "x" ++ "'" :=
  element_has_value_reports_access_failure "x" "stale element reference" detachedElement rfl

/-- C6: the collection text conditions compare only the texts of the
currently displayed elements (non-displayed ones are filtered out before
the comparison), pairing positionally with the expected list;
`collection_has_exact_texts` requires the displayed texts to equal the
expected list (same length, equal at every position), while
`collection_has_texts` requires the same length and containment at every
position. -/
theorem collection_texts_compare_displayed_only (self : String)
    (ps : List (Bool × String)) (expected : List String) (c : SeleneCollection)
    (h : c.resolve = .ok (ps.map (fun p => mkDisplayedTextElement p.1 p.2))) :
    (((collection_has_exact_texts self expected).check c).1 = .success ↔
      (ps.filter (fun p => p.1)).map (fun p => p.2) = expected)
    ∧ (((collection_has_texts self expected).check c).1 = .success ↔
      ((((ps.filter (fun p => p.1)).map (fun p => p.2)).length = expected.length) ∧
        ∀ p ∈ (((ps.filter (fun p => p.1)).map (fun p => p.2)).zip expected),
          predicate.includes p.2 p.1 = true)) := by
  have hacc : (c.resolve >>= visibleTextsOf) =
      .ok ((ps.filter (fun p => p.1)).map (fun p => p.2)) := by
    rw [h]
    simpa [Bind.bind, Except.bind] using visibleTextsOf_mkDisplayedTextElement ps
  constructor
  · have heq : collection_has_exact_texts self expected = Condition.raise_if_not_actual
        ("has exact texts " ++ pyStrTupleRepr expected)
        (fun collection => ((collection.resolve >>= visibleTextsOf), ["visible_texts"]))
        (predicate.equals_to_list expected) := rfl
    rw [heq, raise_if_not_actual_ok_iff _ _ _ c
        ((ps.filter (fun p => p.1)).map (fun p => p.2)) ["visible_texts"] (by simp [hacc])]
    exact pred_equals_to_list_iff expected _
  · have heq : collection_has_texts self expected = Condition.raise_if_not_actual
        ("has texts " ++ pyStrTupleRepr expected)
        (fun collection => ((collection.resolve >>= visibleTextsOf), ["visible_texts"]))
        (predicate.equals_by_contains_to_list expected) := rfl
    rw [heq, raise_if_not_actual_ok_iff _ _ _ c
        ((ps.filter (fun p => p.1)).map (fun p => p.2)) ["visible_texts"] (by simp [hacc])]
    exact pred_equals_by_contains_to_list_iff expected _

/-- C6 witness: a collection of three elements whose middle element is not
displayed satisfies both text conditions against the two displayed texts. -/
theorem collection_texts_compare_displayed_only_witness :
    ((collection_has_exact_texts "ignored" ["a", "b"]).check demoCollection).1 = .success
    ∧ ((collection_has_texts "ignored" ["a", "b"]).check demoCollection).1 = .success :=
  ⟨(collection_texts_compare_displayed_only "ignored" demoPairs ["a", "b"]
      demoCollection rfl).1.mpr (by decide),
   (collection_texts_compare_displayed_only "ignored" demoPairs ["a", "b"]
      demoCollection rfl).2.mpr (by decide)⟩

end Selene
